import Mathlib

/-!
Verification of the VibeBoard GPU worker core (src/gpu-worker/main.py and
src/gpu-worker/runpod_handler.py): the model residency manager
(`ModelManager`), the serverless job dispatcher (`process_job_async`), the
storage fallback (`upload_to_storage`), and the Wan video frame computation
in `generate_video`.

Modelling conventions:
- Handles (materialized model/pipeline objects) are opaque; we model them as
  natural-number tokens drawn from a fresh counter `nextHandle`, so that
  "the same handle" is token equality, mirroring Python object identity.
- The external loaders (`from_pretrained` etc.) either succeed or raise; we
  model this with an oracle `ok : String → Bool` consulted per loader.  In
  every `_load_X` of the source, all fallible calls precede the dictionary
  assignments, so a failing loader mutates nothing — the embedding reflects
  exactly that.
- `loadLog` records each `_load_model` invocation and `clearCount` each
  `clear_vram` invocation; they are pure observation instrumentation (the
  spec itself prescribes load-counting stub loaders and eviction spies) and
  are never read by the modelled control flow.
- Python dicts become association lists with overwrite-on-insert; `None` and
  the truthiness of `Optional[str]` become `Option` and `Option.isSome`
  (all family names in the source are non-empty strings).
-/

deriving instance DecidableEq for Except

namespace GpuWorker

abbrev Handle := Nat

/-- Python `str.lower()`, characterwise over the characters of the string. -/
def pyLower (s : String) : String :=
  String.mk (s.data.map Char.toLower)

/-- The Python substring test `needle in hay` on strings. -/
def isSubstr (needle hay : String) : Bool :=
  decide (needle.data <:+: hay.data)

/-- Residency state of `ModelManager` (main.py lines 65-68) plus
instrumentation (`nextHandle`, `loadLog`, `clearCount`, see module header). -/
structure MMState where
  current_model : Option String
  models : List (String × Handle)
  pipelines : List (String × Handle)
  nextHandle : Nat
  loadLog : List String
  clearCount : Nat
deriving Repr, DecidableEq

/-- Python dict assignment `d[k] = v`: overwrite any previous binding. -/
def dictInsert (k : String) (v : Handle) (d : List (String × Handle)) :
    List (String × Handle) :=
  (k, v) :: d.filter (fun p => p.1 ≠ k)

/-- The family keyword table of `ModelManager._get_model_family`
(main.py lines 126-133), in source order. -/
def familyTable : List (String × List String) :=
  [("depth", ["midas", "zoedepth", "depth_anything"]),
   ("focus", ["learn2refocus", "genfocus", "diffcamera"]),
   ("edit", ["qwen", "sdxl_inpaint"]),
   ("video", ["wan", "cogvideo", "ltx", "svi", "stable_video"]),
   ("segment", ["sam2", "grounded_sam"]),
   ("image", ["flux", "sd3", "sdxl", "hidream"])]

/-- `ModelManager._get_model_family` (main.py lines 121-138).
`if not model_name: return None` covers both `None` and the empty string;
otherwise the first family (in table order) with a keyword occurring as a
substring of the lowercased name wins, and unmatched names map to
`"other"`. -/
def getModelFamily (model_name : Option String) : Option String :=
  match model_name with
  | none => none
  | some s =>
    if s = "" then none
    else
      match familyTable.find?
          (fun fm => fm.2.any (fun kw => isSubstr kw (pyLower s))) with
      | some fm => some fm.1
      | none => some "other"

/-- `ModelManager.clear_vram` (main.py lines 80-93): drop every handle from
both dicts and forget the current model.  `gc.collect`/`empty_cache` are
accelerator-runtime effects outside the residency state. -/
def clear_vram (σ : MMState) : MMState :=
  { current_model := none, models := [], pipelines := [],
    nextHandle := σ.nextHandle, loadLog := σ.loadLog,
    clearCount := σ.clearCount + 1 }

/-- Common shape of the model-dict loaders (`_load_midas`,
`_load_depth_anything`, `_load_qwen_vl`, `_load_sam2`): fallible
`from_pretrained` calls for the model and its processor, and only then the
two dict assignments `self.models[name]` and `self.models[name +
"_processor"]`.  On failure nothing is recorded. -/
def loadPair (ok : String → Bool) (name : String) (σ : MMState) :
    Except String Unit × MMState :=
  if ok name then
    (Except.ok (),
     { σ with
       models := dictInsert (name ++ "_processor") (σ.nextHandle + 1)
                   (dictInsert name σ.nextHandle σ.models),
       nextHandle := σ.nextHandle + 2 })
  else (Except.error ("load failed: " ++ name), σ)

/-- Common shape of the pipeline loaders (`_load_wan_t2v`, `_load_wan_i2v`,
`_load_svi`, `_load_flux_schnell`, `_load_flux_dev`, `_load_sd35_large`,
`_load_ltx_video`): a fallible `from_pretrained`, then the single
assignment `self.pipelines[name]`. -/
def loadPipe (ok : String → Bool) (name : String) (σ : MMState) :
    Except String Unit × MMState :=
  if ok name then
    (Except.ok (),
     { σ with pipelines := dictInsert name σ.nextHandle σ.pipelines,
              nextHandle := σ.nextHandle + 1 })
  else (Except.error ("load failed: " ++ name), σ)

/-- `_load_midas` (main.py lines 172-187): keys `midas`, `midas_processor`
into `models`. -/
def load_midas (ok : String → Bool) (σ : MMState) : Except String Unit × MMState :=
  loadPair ok "midas" σ

/-- `_load_depth_anything` (main.py lines 189-215): keys `depth_anything`,
`depth_anything_processor` into `models`. -/
def load_depth_anything (ok : String → Bool) (σ : MMState) :
    Except String Unit × MMState :=
  loadPair ok "depth_anything" σ

/-- `_load_wan_t2v` (main.py lines 217-231): key `wan_t2v` into `pipelines`. -/
def load_wan_t2v (ok : String → Bool) (σ : MMState) : Except String Unit × MMState :=
  loadPipe ok "wan_t2v" σ

/-- `_load_wan_i2v` (main.py lines 233-246): key `wan_i2v` into `pipelines`. -/
def load_wan_i2v (ok : String → Bool) (σ : MMState) : Except String Unit × MMState :=
  loadPipe ok "wan_i2v" σ

/-- `_load_qwen_vl` (main.py lines 248-265): keys `qwen_vl`,
`qwen_vl_processor` into `models`. -/
def load_qwen_vl (ok : String → Bool) (σ : MMState) : Except String Unit × MMState :=
  loadPair ok "qwen_vl" σ

/-- `_load_sam2` (main.py lines 267-300): keys `sam2`, `sam2_processor`
into `models`. -/
def load_sam2 (ok : String → Bool) (σ : MMState) : Except String Unit × MMState :=
  loadPair ok "sam2" σ

/-- `_load_svi` (main.py lines 302-332): key `svi` into `pipelines`. -/
def load_svi (ok : String → Bool) (σ : MMState) : Except String Unit × MMState :=
  loadPipe ok "svi" σ

/-- `_load_flux_schnell` (main.py lines 334-361): key `flux_schnell` into
`pipelines`. -/
def load_flux_schnell (ok : String → Bool) (σ : MMState) :
    Except String Unit × MMState :=
  loadPipe ok "flux_schnell" σ

/-- `_load_flux_dev` (main.py lines 363-390): key `flux_dev` into
`pipelines`. -/
def load_flux_dev (ok : String → Bool) (σ : MMState) : Except String Unit × MMState :=
  loadPipe ok "flux_dev" σ

/-- `_load_sd35_large` (main.py lines 392-420): key `sd35_large` into
`pipelines`. -/
def load_sd35_large (ok : String → Bool) (σ : MMState) :
    Except String Unit × MMState :=
  loadPipe ok "sd35_large" σ

/-- `_load_ltx_video` (main.py lines 422-455): key `ltx_video` into
`pipelines`. -/
def load_ltx_video (ok : String → Bool) (σ : MMState) : Except String Unit × MMState :=
  loadPipe ok "ltx_video" σ

/-- `ModelManager._load_model` (main.py lines 140-170): dispatch on the
model name in source order; an unrecognized name only logs a warning (no
state change, no error); any loader exception is re-raised. -/
def load_model (ok : String → Bool) (σ : MMState) (model_name : String) :
    Except String Unit × MMState :=
  match model_name with
  | "midas" => load_midas ok { σ with loadLog := σ.loadLog ++ [model_name] }
  | "depth_anything" =>
    load_depth_anything ok { σ with loadLog := σ.loadLog ++ [model_name] }
  | "wan_t2v" => load_wan_t2v ok { σ with loadLog := σ.loadLog ++ [model_name] }
  | "wan_i2v" => load_wan_i2v ok { σ with loadLog := σ.loadLog ++ [model_name] }
  | "qwen_vl" => load_qwen_vl ok { σ with loadLog := σ.loadLog ++ [model_name] }
  | "sam2" => load_sam2 ok { σ with loadLog := σ.loadLog ++ [model_name] }
  | "svi" => load_svi ok { σ with loadLog := σ.loadLog ++ [model_name] }
  | "flux_schnell" =>
    load_flux_schnell ok { σ with loadLog := σ.loadLog ++ [model_name] }
  | "flux_dev" => load_flux_dev ok { σ with loadLog := σ.loadLog ++ [model_name] }
  | "sd35_large" =>
    load_sd35_large ok { σ with loadLog := σ.loadLog ++ [model_name] }
  | "ltx_video" =>
    load_ltx_video ok { σ with loadLog := σ.loadLog ++ [model_name] }
  | _ => (Except.ok (), { σ with loadLog := σ.loadLog ++ [model_name] })

/-- The eviction phase of `ModelManager.ensure_model` (main.py lines
105-111): if a current family exists and differs from the requested one,
clear the VRAM.  `if current_family and ...` is Python truthiness; family
strings are never empty, so it is `Option.isSome` here. -/
def ensurePreload (σ : MMState) (model_name : String) : MMState :=
  if (getModelFamily σ.current_model).isSome ∧
      getModelFamily σ.current_model ≠ getModelFamily (some model_name) then
    clear_vram σ
  else σ

/-- `ModelManager.ensure_model` (main.py lines 95-119).  After the eviction
phase, the load is skipped exactly when `model_name` is a key of `models`
(the source checks only the `models` dict); on loader failure the exception
propagates and `current_model` is not updated.  The returned handle is
`self.models.get(name) or self.pipelines.get(name)`. -/
def ensure_model (ok : String → Bool) (σ : MMState) (model_name : String) :
    Except String (Option Handle) × MMState :=
  let σ1 := ensurePreload σ model_name
  if (σ1.models.lookup model_name).isSome then
    let σ2 := { σ1 with current_model := some model_name }
    (Except.ok ((σ2.models.lookup model_name).orElse
        fun _ => σ2.pipelines.lookup model_name), σ2)
  else
    match load_model ok σ1 model_name with
    | (Except.ok _, σ2) =>
      let σ3 := { σ2 with current_model := some model_name }
      (Except.ok ((σ3.models.lookup model_name).orElse
          fun _ => σ3.pipelines.lookup model_name), σ3)
    | (Except.error e, σ2) => (Except.error e, σ2)

/-- An observable call on the residency manager. -/
inductive MMOp where
  | ensure (name : String)
  | clear
deriving Repr, DecidableEq

/-- One call; a raised load failure propagates to the caller but the
manager object keeps whatever state it had at the raise point. -/
def mmStep (ok : String → Bool) (σ : MMState) : MMOp → MMState
  | MMOp.ensure n => (ensure_model ok σ n).2
  | MMOp.clear => clear_vram σ

/-- `ModelManager.__init__` (main.py lines 65-68). -/
def mmInit : MMState :=
  { current_model := none, models := [], pipelines := [],
    nextHandle := 0, loadLog := [], clearCount := 0 }

/-- State after a sequence of `ensure_model` / `clear_vram` calls starting
from the freshly constructed manager. -/
def run (ok : String → Bool) (ops : List MMOp) : MMState :=
  ops.foldl (mmStep ok) mmInit

/-- The loaded handles: union of the `models` and `pipelines` dicts. -/
def handlesOf (σ : MMState) : List (String × Handle) :=
  σ.models ++ σ.pipelines

/-- Single-family residency: the key of every loaded handle resolves to a real
family, equal to the family of `current_model`. -/
def SingleFamilyInv (σ : MMState) : Prop :=
  ∀ p ∈ handlesOf σ,
    getModelFamily (some p.1) = getModelFamily σ.current_model ∧
    (getModelFamily (some p.1)).isSome = true

lemma mem_dictInsert {p : String × Handle} {k : String} {v : Handle}
    {d : List (String × Handle)} (h : p ∈ dictInsert k v d) :
    p = (k, v) ∨ p ∈ d := by
  simp only [dictInsert, List.mem_cons, List.mem_filter] at h
  rcases h with h | ⟨h, _⟩
  · exact Or.inl h
  · exact Or.inr h

lemma handlesOf_clear (σ : MMState) : handlesOf (clear_vram σ) = [] := rfl

lemma loadPair_snd (ok : String → Bool) (name : String) (σ : MMState) :
    ((loadPair ok name σ).2.current_model = σ.current_model ∧
     (loadPair ok name σ).2.loadLog = σ.loadLog ∧
     (loadPair ok name σ).2.clearCount = σ.clearCount) ∧
    (∀ p ∈ handlesOf (loadPair ok name σ).2,
       p ∈ handlesOf σ ∨ p.1 = name ∨ p.1 = name ++ "_processor") := by
  unfold loadPair
  split
  · refine ⟨⟨rfl, rfl, rfl⟩, ?_⟩
    intro p hp
    simp only [handlesOf, List.mem_append] at hp
    rcases hp with hp | hp
    · rcases mem_dictInsert hp with h | hp
      · exact Or.inr (Or.inr (by simp [h]))
      · rcases mem_dictInsert hp with h | hp
        · exact Or.inr (Or.inl (by simp [h]))
        · exact Or.inl (by simp [handlesOf, hp])
    · exact Or.inl (by simp [handlesOf, hp])
  · exact ⟨⟨rfl, rfl, rfl⟩, fun p hp => Or.inl hp⟩

lemma loadPipe_snd (ok : String → Bool) (name : String) (σ : MMState) :
    ((loadPipe ok name σ).2.current_model = σ.current_model ∧
     (loadPipe ok name σ).2.loadLog = σ.loadLog ∧
     (loadPipe ok name σ).2.clearCount = σ.clearCount) ∧
    (∀ p ∈ handlesOf (loadPipe ok name σ).2,
       p ∈ handlesOf σ ∨ p.1 = name) := by
  unfold loadPipe
  split
  · refine ⟨⟨rfl, rfl, rfl⟩, ?_⟩
    intro p hp
    simp only [handlesOf, List.mem_append] at hp
    rcases hp with hp | hp
    · exact Or.inl (by simp [handlesOf, hp])
    · rcases mem_dictInsert hp with h | hp
      · exact Or.inr (by simp [h])
      · exact Or.inl (by simp [handlesOf, hp])
  · exact ⟨⟨rfl, rfl, rfl⟩, fun p hp => Or.inl hp⟩

/-- `_load_model` never touches `current_model` or `clearCount`, and
records exactly one load-log entry. -/
lemma load_model_frame (ok : String → Bool) (σ : MMState) (name : String) :
    (load_model ok σ name).2.current_model = σ.current_model ∧
    (load_model ok σ name).2.loadLog = σ.loadLog ++ [name] ∧
    (load_model ok σ name).2.clearCount = σ.clearCount := by
  unfold load_model
  split <;>
    first
      | exact ⟨rfl, rfl, rfl⟩
      | exact (loadPair_snd ok _ _).1
      | exact (loadPipe_snd ok _ _).1

/-- Any handle present after `_load_model name` was either already present
or belongs to the own family of `name` (and that family is a real one). -/
lemma load_model_mem (ok : String → Bool) (σ : MMState) (name : String)
    (p : String × Handle) (hp : p ∈ handlesOf (load_model ok σ name).2) :
    p ∈ handlesOf σ ∨
      (getModelFamily (some p.1) = getModelFamily (some name) ∧
       (getModelFamily (some p.1)).isSome = true) := by
  unfold load_model at hp
  split at hp
  · rcases (loadPair_snd ok "midas" _).2 p hp with h | h | h
    · exact Or.inl h
    · exact Or.inr (by rw [h]; exact ⟨rfl, by decide⟩)
    · exact Or.inr (by rw [h]; exact ⟨by decide, by decide⟩)
  · rcases (loadPair_snd ok "depth_anything" _).2 p hp with h | h | h
    · exact Or.inl h
    · exact Or.inr (by rw [h]; exact ⟨rfl, by decide⟩)
    · exact Or.inr (by rw [h]; exact ⟨by decide, by decide⟩)
  · rcases (loadPipe_snd ok "wan_t2v" _).2 p hp with h | h
    · exact Or.inl h
    · exact Or.inr (by rw [h]; exact ⟨rfl, by decide⟩)
  · rcases (loadPipe_snd ok "wan_i2v" _).2 p hp with h | h
    · exact Or.inl h
    · exact Or.inr (by rw [h]; exact ⟨rfl, by decide⟩)
  · rcases (loadPair_snd ok "qwen_vl" _).2 p hp with h | h | h
    · exact Or.inl h
    · exact Or.inr (by rw [h]; exact ⟨rfl, by decide⟩)
    · exact Or.inr (by rw [h]; exact ⟨by decide, by decide⟩)
  · rcases (loadPair_snd ok "sam2" _).2 p hp with h | h | h
    · exact Or.inl h
    · exact Or.inr (by rw [h]; exact ⟨rfl, by decide⟩)
    · exact Or.inr (by rw [h]; exact ⟨by decide, by decide⟩)
  · rcases (loadPipe_snd ok "svi" _).2 p hp with h | h
    · exact Or.inl h
    · exact Or.inr (by rw [h]; exact ⟨rfl, by decide⟩)
  · rcases (loadPipe_snd ok "flux_schnell" _).2 p hp with h | h
    · exact Or.inl h
    · exact Or.inr (by rw [h]; exact ⟨rfl, by decide⟩)
  · rcases (loadPipe_snd ok "flux_dev" _).2 p hp with h | h
    · exact Or.inl h
    · exact Or.inr (by rw [h]; exact ⟨rfl, by decide⟩)
  · rcases (loadPipe_snd ok "sd35_large" _).2 p hp with h | h
    · exact Or.inl h
    · exact Or.inr (by rw [h]; exact ⟨rfl, by decide⟩)
  · rcases (loadPipe_snd ok "ltx_video" _).2 p hp with h | h
    · exact Or.inl h
    · exact Or.inr (by rw [h]; exact ⟨rfl, by decide⟩)
  · exact Or.inl hp

/-- On a loader failure `_load_model` leaves the residency dicts and
`current_model` exactly as they were (only the load log grows). -/
lemma load_model_error_state (ok : String → Bool) (σ : MMState) (name : String)
    {e : String} {σ2 : MMState}
    (h : load_model ok σ name = (Except.error e, σ2)) :
    σ2 = { σ with loadLog := σ.loadLog ++ [name] } := by
  unfold load_model at h
  split at h <;>
    first
      | (simp only [load_midas, load_depth_anything, load_qwen_vl, load_sam2,
           loadPair] at h; split at h <;> simp_all)
      | (simp only [load_wan_t2v, load_wan_i2v, load_svi, load_flux_schnell,
           load_flux_dev, load_sd35_large, load_ltx_video, loadPipe] at h;
         split at h <;> simp_all)
      | simp_all

lemma ensurePreload_cases (σ : MMState) (n : String) :
    ensurePreload σ n = clear_vram σ ∨ ensurePreload σ n = σ := by
  unfold ensurePreload
  split
  · exact Or.inl rfl
  · exact Or.inr rfl

/-- After the eviction phase for `n`, every surviving handle already has
the family of `n`. -/
lemma preload_family (σ : MMState) (n : String) (h : SingleFamilyInv σ) :
    ∀ p ∈ handlesOf (ensurePreload σ n),
      getModelFamily (some p.1) = getModelFamily (some n) ∧
      (getModelFamily (some p.1)).isSome = true := by
  intro p hp
  unfold ensurePreload at hp
  split at hp
  · simp [handlesOf, clear_vram] at hp
  · rename_i hc
    obtain ⟨h1, h2⟩ := h p hp
    rcases hcur : getModelFamily σ.current_model with _ | f
    · rw [hcur] at h1
      rw [h1] at h2
      simp at h2
    · have : getModelFamily σ.current_model = getModelFamily (some n) := by
        by_contra hne
        exact hc ⟨by simp [hcur], hne⟩
      rw [h1, hcur] at *
      exact ⟨by rw [← this, hcur], by rw [hcur]; rfl⟩

lemma inv_preload (σ : MMState) (n : String) (h : SingleFamilyInv σ) :
    SingleFamilyInv (ensurePreload σ n) := by
  rcases ensurePreload_cases σ n with he | he <;> rw [he]
  · intro p hp
    simp [handlesOf, clear_vram] at hp
  · exact h

/-- `ensure_model` preserves single-family residency. -/
lemma inv_ensure (ok : String → Bool) (σ : MMState) (n : String)
    (h : SingleFamilyInv σ) : SingleFamilyInv (ensure_model ok σ n).2 := by
  have hpre : SingleFamilyInv (ensurePreload σ n) := inv_preload σ n h
  have hfam := preload_family σ n h
  unfold ensure_model
  dsimp only
  split
  · intro p hp
    obtain ⟨h1, h2⟩ := hfam p hp
    exact ⟨h1, h2⟩
  · split
    · rename_i u σ2 heq
      intro p hp
      have hp2 : p ∈ handlesOf σ2 := hp
      have hσ2 : σ2 = (load_model ok (ensurePreload σ n) n).2 := by
        rw [heq]
      rw [hσ2] at hp2
      rcases load_model_mem ok (ensurePreload σ n) n p hp2 with hmem | ⟨h1, h2⟩
      · obtain ⟨h1, h2⟩ := hfam p hmem
        exact ⟨h1, h2⟩
      · exact ⟨h1, h2⟩
    · rename_i e σ2 heq
      have hst := load_model_error_state ok (ensurePreload σ n) n heq
      subst hst
      intro p hp
      exact hpre p hp

lemma inv_step (ok : String → Bool) (σ : MMState) (op : MMOp)
    (h : SingleFamilyInv σ) : SingleFamilyInv (mmStep ok σ op) := by
  cases op with
  | ensure n => exact inv_ensure ok σ n h
  | clear =>
    intro p hp
    simp [mmStep, handlesOf, clear_vram] at hp

lemma inv_init : SingleFamilyInv mmInit := by
  intro p hp
  simp [handlesOf, mmInit] at hp

lemma inv_run (ok : String → Bool) (ops : List MMOp) :
    SingleFamilyInv (run ok ops) := by
  have key : ∀ (l : List MMOp) (σ : MMState), SingleFamilyInv σ →
      SingleFamilyInv (l.foldl (mmStep ok) σ) := by
    intro l
    induction l with
    | nil => exact fun σ h => h
    | cons o os ih => exact fun σ h => ih _ (inv_step ok σ o h)
  exact key ops mmInit inv_init

/-- C1: Single-family residency invariant.  For every sequence of
`ensure_model` and `clear_vram` calls starting from the empty state (under
any loader-success oracle, so also across propagated load failures), the
loaded handles — the union of the `models` and `pipelines` dicts — contain
entries of at most one model family, and `current_model` resolves to that
same family whenever any handle is loaded. -/
theorem single_family_residency (ok : String → Bool) (ops : List MMOp) :
    (∀ p ∈ handlesOf (run ok ops), ∀ q ∈ handlesOf (run ok ops),
        getModelFamily (some p.1) = getModelFamily (some q.1)) ∧
    (∀ p ∈ handlesOf (run ok ops),
        getModelFamily (some p.1) = getModelFamily (run ok ops).current_model ∧
        (getModelFamily (some p.1)).isSome = true) := by
  have h := inv_run ok ops
  refine ⟨?_, h⟩
  intro p hp q hq
  rw [(h p hp).1, (h q hq).1]

/-- Witness for `single_family_residency` at a concrete trace: after
`ensure_model("midas")` the handle `("midas", 0)` is resident, its family
equals the family of `current_model`, and that family is a real one. -/
theorem single_family_residency_witness :
    getModelFamily (some (("midas", 0) : String × Handle).1) =
      getModelFamily (run (fun _ => true) [MMOp.ensure "midas"]).current_model ∧
    (getModelFamily (some (("midas", 0) : String × Handle).1)).isSome = true :=
  (single_family_residency (fun _ => true) [MMOp.ensure "midas"]).2
    ("midas", 0) (by decide)

/-- C2: Loader-failure atomicity.  If the loader invoked by `ensure_model`
raises (the call returns `Except.error`), then the residency bookkeeping —
`current_model` and both handle dicts — is exactly what it was when the
load began (i.e. just after the eviction phase), and in particular no
partial handle is recorded under the requested id.  The error itself
propagates to the caller in the first component. -/
theorem loader_failure_atomicity (ok : String → Bool) (σ : MMState)
    (name e : String) (σ' : MMState)
    (h : ensure_model ok σ name = (Except.error e, σ')) :
    σ'.current_model = (ensurePreload σ name).current_model ∧
    σ'.models = (ensurePreload σ name).models ∧
    σ'.pipelines = (ensurePreload σ name).pipelines ∧
    σ'.models.lookup name = none := by
  unfold ensure_model at h
  dsimp only at h
  split at h
  · exact absurd h (by simp)
  · rename_i hl
    split at h
    · exact absurd h (by simp)
    · rename_i e2 σ2 heq
      rw [Prod.mk.injEq] at h
      obtain ⟨_, hσ'⟩ := h
      have hst := load_model_error_state ok (ensurePreload σ name) name heq
      rw [← hσ', hst]
      refine ⟨rfl, rfl, rfl, ?_⟩
      show (ensurePreload σ name).models.lookup name = none
      cases hcase : (ensurePreload σ name).models.lookup name with
      | none => rfl
      | some v => exact absurd (by rw [hcase]; rfl) hl

/-- Witness for `loader_failure_atomicity`: a failing `midas` load from the
empty state errors out and records nothing. -/
theorem loader_failure_atomicity_witness :
    ({ mmInit with loadLog := ["midas"] } : MMState).current_model =
      (ensurePreload mmInit "midas").current_model ∧
    ({ mmInit with loadLog := ["midas"] } : MMState).models =
      (ensurePreload mmInit "midas").models ∧
    ({ mmInit with loadLog := ["midas"] } : MMState).pipelines =
      (ensurePreload mmInit "midas").pipelines ∧
    ({ mmInit with loadLog := ["midas"] } : MMState).models.lookup "midas" = none :=
  loader_failure_atomicity (fun _ => false) mmInit "midas" "load failed: midas"
    { mmInit with loadLog := ["midas"] } (by decide)

/-- C3 (code bug, evaluated at the failing input): two consecutive
`ensure_model("wan_t2v")` calls with an always-succeeding loader and no
intervening eviction (`clearCount` stays 0) invoke the Wan T2V loader
twice (`loadLog` counts 2) and return two distinct pipeline handles (0,
then 1), because `ensure_model` tests `model_name not in self.models`
while the handle lives in `self.pipelines`.  This contradicts the lazy-load
claim and the source comments "Load model if not already loaded" /
"Lazy load on first request" comments. -/
theorem wan_t2v_loader_reinvoked :
    ((ensure_model (fun _ => true) mmInit "wan_t2v").2).loadLog.count "wan_t2v"
      = 1 ∧
    ((ensure_model (fun _ => true)
        ((ensure_model (fun _ => true) mmInit "wan_t2v").2) "wan_t2v").2).loadLog.count
        "wan_t2v" = 2 ∧
    ((ensure_model (fun _ => true)
        ((ensure_model (fun _ => true) mmInit "wan_t2v").2) "wan_t2v").2).clearCount
      = 0 ∧
    (ensure_model (fun _ => true) mmInit "wan_t2v").1 = Except.ok (some 0) ∧
    (ensure_model (fun _ => true)
        ((ensure_model (fun _ => true) mmInit "wan_t2v").2) "wan_t2v").1 =
      Except.ok (some 1) := by decide

/-- C7 counterexample: with `mystery_model_a` (family `other`) resident as
`current_model`, an ensure of the different id `mystery_model_b` (also
family `other`) performs NO eviction — `clear_vram` is never invoked
(`clearCount` stays 0) — contradicting the claim that an `other`-family
model is evicted by any subsequent ensure of a different id including
another `other` model. -/
theorem other_family_no_eviction :
    getModelFamily (some "mystery_model_a") = some "other" ∧
    getModelFamily (some "mystery_model_b") = some "other" ∧
    ("mystery_model_a" : String) ≠ "mystery_model_b" ∧
    ((ensure_model (fun _ => true) mmInit "mystery_model_a").2).current_model =
      some "mystery_model_a" ∧
    ((ensure_model (fun _ => true)
        ((ensure_model (fun _ => true) mmInit "mystery_model_a").2)
        "mystery_model_b").2).clearCount = 0 ∧
    ((ensure_model (fun _ => true)
        ((ensure_model (fun _ => true) mmInit "mystery_model_a").2)
        "mystery_model_b").2).current_model = some "mystery_model_b" := by decide

/-- C7 amended: any NON-EMPTY id matching no keyword resolves to the
catch-all `other` family; with an `other`-family `current_model`, a
subsequent `ensure_model(name)` runs `clear_vram` exactly when the family
of `name` differs from `other` (so a second `other`-family id triggers no
eviction), and within the `other` family the load routine is re-invoked or
skipped according to exact-id membership in the `models` dict. -/
theorem other_family_eviction_amended (ok : String → Bool) (σ : MMState)
    (name cur : String)
    (hcur : σ.current_model = some cur)
    (hfam : getModelFamily (some cur) = some "other") :
    ((name ≠ "" ∧ familyTable.all
        (fun fm => fm.2.all (fun kw => ! isSubstr kw (pyLower name))) = true) →
      getModelFamily (some name) = some "other") ∧
    (getModelFamily (some name) = some "other" →
      ((ensure_model ok σ name).2).clearCount = σ.clearCount ∧
      ((σ.models.lookup name).isSome = false →
        ((ensure_model ok σ name).2).loadLog = σ.loadLog ++ [name]) ∧
      ((σ.models.lookup name).isSome = true →
        ((ensure_model ok σ name).2).loadLog = σ.loadLog)) ∧
    (getModelFamily (some name) ≠ some "other" →
      ((ensure_model ok σ name).2).clearCount = σ.clearCount + 1) := by
  have hcf : getModelFamily σ.current_model = some "other" := by
    rw [hcur]; exact hfam
  refine ⟨?_, ?_, ?_⟩
  · rintro ⟨hne, hall⟩
    simp only [getModelFamily]
    rw [if_neg hne]
    have hfind : familyTable.find?
        (fun fm => fm.2.any (fun kw => isSubstr kw (pyLower name))) = none := by
      rw [List.find?_eq_none]
      intro fm hfm
      have h1 := (List.all_eq_true.mp hall) fm hfm
      simp only [List.all_eq_true, Bool.not_eq_true'] at h1
      simp only [List.any_eq_true, not_exists, not_and, Bool.not_eq_true]
      intro kw hkw
      exact h1 kw hkw
    rw [hfind]
  · intro honly
    have hpre : ensurePreload σ name = σ := by
      unfold ensurePreload
      rw [if_neg]
      rw [hcf, honly]
      simp
    by_cases hl : (σ.models.lookup name).isSome = true
    · have hres : (ensure_model ok σ name).2 =
          { σ with current_model := some name } := by
        unfold ensure_model
        dsimp only
        rw [hpre, if_pos hl]
      rw [hres]
      exact ⟨rfl, fun hfalse => absurd hl (by rw [hfalse]; simp), fun _ => rfl⟩
    · have hframe := load_model_frame ok σ name
      have hres : (ensure_model ok σ name).2 =
          if (load_model ok σ name).1.isOk then
            { (load_model ok σ name).2 with current_model := some name }
          else (load_model ok σ name).2 := by
        unfold ensure_model
        dsimp only
        rw [hpre, if_neg hl]
        rcases hload : load_model ok σ name with ⟨r, σ2⟩
        cases r with
        | ok u => simp [Except.isOk, Except.toBool]
        | error e => simp [Except.isOk, Except.toBool]
      rw [hres]
      split
      · exact ⟨hframe.2.2, fun _ => hframe.2.1,
          fun htrue => absurd htrue hl⟩
      · exact ⟨hframe.2.2, fun _ => hframe.2.1,
          fun htrue => absurd htrue hl⟩
  · intro hother
    have hpre : ensurePreload σ name = clear_vram σ := by
      unfold ensurePreload
      rw [if_pos]
      rw [hcf]
      exact ⟨rfl, fun hc => hother (by rw [← hc])⟩
    have hl : ((clear_vram σ).models.lookup name).isSome = true → False := by
      intro hc
      simp [clear_vram, List.lookup] at hc
    have hframe := load_model_frame ok (clear_vram σ) name
    have hres : (ensure_model ok σ name).2 =
        if (load_model ok (clear_vram σ) name).1.isOk then
          { (load_model ok (clear_vram σ) name).2 with
              current_model := some name }
        else (load_model ok (clear_vram σ) name).2 := by
      unfold ensure_model
      dsimp only
      rw [hpre, if_neg hl]
      rcases hload : load_model ok (clear_vram σ) name with ⟨r, σ2⟩
      cases r with
      | ok u => simp [Except.isOk, Except.toBool]
      | error e => simp [Except.isOk, Except.toBool]
    rw [hres]
    split
    · exact hframe.2.2
    · exact hframe.2.2

/-- Witness for `other_family_eviction_amended`: with `mystery_model_a`
resident, ensuring the unmatched id `mystery_model_c` resolves to `other`,
evicts nothing, and invokes the load routine once (the id is not in
`models`). -/
theorem other_family_eviction_amended_witness :
    getModelFamily (some "mystery_model_c") = some "other" ∧
    ((ensure_model (fun _ => true)
        ({ mmInit with current_model := some "mystery_model_a" } : MMState)
        "mystery_model_c").2).clearCount =
      ({ mmInit with current_model := some "mystery_model_a" } : MMState).clearCount ∧
    ((ensure_model (fun _ => true)
        ({ mmInit with current_model := some "mystery_model_a" } : MMState)
        "mystery_model_c").2).loadLog =
      ({ mmInit with current_model := some "mystery_model_a" } : MMState).loadLog
        ++ ["mystery_model_c"] := by
  have h := other_family_eviction_amended (fun _ => true)
    { mmInit with current_model := some "mystery_model_a" }
    "mystery_model_c" "mystery_model_a" rfl (by decide)
  have ha : getModelFamily (some "mystery_model_c") = some "other" :=
    h.1 ⟨by decide, by decide⟩
  have hb := h.2.1 ha
  exact ⟨ha, hb.1, hb.2.1 (by decide)⟩

/-- The observable residency triple: `current_model` and the two handle
dicts (the instrumentation fields are not part of the Python state). -/
def residencyOf (σ : MMState) : Option String ×
    List (String × Handle) × List (String × Handle) :=
  (σ.current_model, σ.models, σ.pipelines)

/-- C8: Release idempotence.  `clear_vram` twice in a row yields the same
empty residency state as once (and being a total function it cannot
error), and on an already-empty residency state it is a no-op on that
state. -/
theorem clear_vram_idempotent (σ : MMState) :
    residencyOf (clear_vram (clear_vram σ)) = residencyOf (clear_vram σ) ∧
    residencyOf (clear_vram σ) = (none, [], []) ∧
    (residencyOf σ = (none, [], []) → residencyOf (clear_vram σ) = residencyOf σ) := by
  refine ⟨rfl, rfl, ?_⟩
  intro h
  rw [h]
  rfl

/-- Witness for `clear_vram_idempotent` at the initial (empty) state. -/
theorem clear_vram_idempotent_witness :
    residencyOf (clear_vram (clear_vram mmInit)) = residencyOf (clear_vram mmInit) ∧
    residencyOf (clear_vram mmInit) = (none, [], []) ∧
    residencyOf (clear_vram mmInit) = residencyOf mmInit := by
  have h := clear_vram_idempotent mmInit
  exact ⟨h.1, h.2.1, h.2.2 rfl⟩

/-! ## The serverless job dispatcher (src/gpu-worker/runpod_handler.py) -/

/-- The untyped `params` mapping of a job. -/
abbrev Params := List (String × String)

/-- `ProcessingResponse` (main.py lines 784-791): the pydantic response
model shared by every registered handler.  `processing_time_ms` is a
required field; the optional fields default to `None`. -/
structure ProcessingResponse where
  success : Bool
  output_url : Option String := none
  output_base64 : Option String := none
  processing_time_ms : Int
  metadata : Option (List (String × String)) := none
  error : Option String := none
deriving Repr, DecidableEq

/-- A response dict as returned by `process_job_async`.  Only the
claim-relevant keys are modelled; `Option.none` on `error` and
`processing_time_ms` means the key is absent from the dict (for
`model_dump()` output the key is always present). -/
structure Envelope where
  success : Bool
  error : Option String := none
  processing_time_ms : Option Int := none
deriving Repr, DecidableEq

/-- `result.model_dump()` of a `ProcessingResponse`: every field of the
model appears in the dict, in particular `processing_time_ms`. -/
def respEnvelope (r : ProcessingResponse) : Envelope :=
  { success := r.success, error := r.error,
    processing_time_ms := some r.processing_time_ms }

/-- The apostrophe character, used by Python `repr` of strings. -/
def quoteChar : Char := Char.ofNat 39

/-- Python `repr` of a string as it appears inside `f"{list}"`. -/
def pyStrRepr (s : String) : String :=
  String.mk (quoteChar :: (s.data ++ [quoteChar]))

/-- Elements of a Python list repr, comma-separated. -/
def pyListReprAux : List String → String
  | [] => ""
  | [x] => pyStrRepr x
  | x :: xs => pyStrRepr x ++ ", " ++ pyListReprAux xs

/-- Python `f"{xs}"` for a list of strings. -/
def pyListRepr (xs : List String) : String :=
  "[" ++ pyListReprAux xs ++ "]"

/-- The unknown-operation error text of runpod_handler.py line 154. -/
def unknownOpMessage (validOps : List String) (op : String) : String :=
  "Unknown operation: " ++ op ++ ". Available: " ++ pyListRepr validOps

/-- One entry of the `HANDLERS` registry: the pydantic request-model
constructor (`request_model(**params)`, a pure validator that raises on
bad fields) and the async handler.  The handler may mutate the residency
state before raising, so it returns the state in both outcomes. -/
structure OpEntry where
  validate : Params → Except String Params
  handler : Params → MMState → (Except String ProcessingResponse) × MMState

/-- `process_job_async` (runpod_handler.py lines 85-176): special-cases
`health` / `models` / `unload`, rejects unknown operations with the
enumerating message, then validates and runs the handler inside a
catch-all `try`.  Output: the envelope, the residency state afterwards,
and whether the handler was invoked (the spy bit prescribed by the spec).
The function is total: no exception escapes dispatch. -/
def process_job (registry : List (String × OpEntry)) (σ : MMState)
    (op : String) (params : Params) : Envelope × MMState × Bool :=
  if op = "health" then ({ success := true }, σ, false)
  else if op = "models" then ({ success := true }, σ, false)
  else if op = "unload" then ({ success := true }, clear_vram σ, false)
  else
    match registry.lookup op with
    | none =>
      ({ success := false,
         error := some (unknownOpMessage
           (registry.map Prod.fst ++ ["health", "models", "unload"]) op) },
       σ, false)
    | some entry =>
      match entry.validate params with
      | Except.error e => ({ success := false, error := some e }, σ, false)
      | Except.ok req =>
        match entry.handler req σ with
        | (Except.ok r, σ') => (respEnvelope r, σ', true)
        | (Except.error e, σ') => ({ success := false, error := some e }, σ', true)

/-- The keys of `HANDLERS` (runpod_handler.py lines 49-82), in source
order. -/
def HANDLERS_keys : List String :=
  ["rack_focus", "lens_character", "rescue_focus", "director_edit",
   "video_generate", "video_t2v", "video_i2v",
   "svi_generate", "stable_video_infinity", "video_svi",
   "flux_generate", "flux_schnell", "flux_dev", "image_flux",
   "sd35_generate", "sd35_large", "image_sd35",
   "ltx_generate", "ltx_video", "video_ltx",
   "depth_anything", "depth_anything_v2", "depth_estimate",
   "sam2_segment", "sam2", "segment"]

/-- A stub `ProcessingResponse`, playing the role of a successful handler
result in concrete witnesses. -/
def stubResponse : ProcessingResponse :=
  { success := true, processing_time_ms := 0 }

/-- A stub registry entry (always-valid schema, trivially succeeding
handler) used to instantiate the registry in witnesses, as the spec
prescribes stub/spy collaborators for these properties. -/
def stubEntry : OpEntry :=
  { validate := fun p => Except.ok p,
    handler := fun _ σ => (Except.ok stubResponse, σ) }

/-- The registry shape of the source (`HANDLERS` keys) with stub entries. -/
def testRegistry : List (String × OpEntry) :=
  HANDLERS_keys.map (fun k => (k, stubEntry))

/-- A spy entry mirroring the `DirectorEditRequest` bound `strength ≤ 1.0`
(main.py line 641): validation fails on an out-of-range strength, and the
handler records nothing. -/
def spyEntry : OpEntry :=
  { validate := fun p =>
      if p.lookup "strength" = some "5.0" then
        Except.error "strength: input should be less than or equal to 1.0"
      else Except.ok p,
    handler := fun _ σ => (Except.ok stubResponse, σ) }

/-- Registry with the single spied operation. -/
def spyRegistry : List (String × OpEntry) := [("director_edit", spyEntry)]

lemma infix_extend_left {α : Type} {l m pre : List α} (h : l <:+: m) :
    l <:+: pre ++ m :=
  h.trans ⟨pre, [], by simp⟩

lemma infix_extend_right {α : Type} {l m suf : List α} (h : l <:+: m) :
    l <:+: m ++ suf :=
  h.trans ⟨[], suf, by simp⟩

/-- Every member of a list occurs inside its Python repr text. -/
lemma mem_pyListRepr (v : String) (xs : List String) (hv : v ∈ xs) :
    v.data <:+: (pyListRepr xs).data := by
  have aux : ∀ (ys : List String), v ∈ ys → v.data <:+: (pyListReprAux ys).data := by
    intro ys
    induction ys with
    | nil => intro h; simp at h
    | cons x rest ih =>
      intro h
      cases rest with
      | nil =>
        have hx : v = x := by simpa using h
        subst hx
        show v.data <:+: (pyStrRepr v).data
        exact ⟨[quoteChar], [quoteChar], by simp [pyStrRepr]⟩
      | cons y rest2 =>
        rcases List.mem_cons.mp h with hx | hmem
        · subst hx
          show v.data <:+: (pyStrRepr v ++ ", " ++ pyListReprAux (y :: rest2)).data
          have h1 : v.data <:+: (pyStrRepr v).data :=
            ⟨[quoteChar], [quoteChar], by simp [pyStrRepr]⟩
          calc v.data <:+: (pyStrRepr v).data := h1
            _ <:+: ((pyStrRepr v ++ ", ") ++ pyListReprAux (y :: rest2)).data := by
                rw [String.data_append, String.data_append]
                exact infix_extend_right (infix_extend_right (by simp))
        · have h1 := ih hmem
          show v.data <:+: (pyStrRepr x ++ ", " ++ pyListReprAux (y :: rest2)).data
          rw [String.data_append]
          exact infix_extend_left h1
  have h1 := aux xs hv
  show v.data <:+: ("[" ++ pyListReprAux xs ++ "]").data
  rw [String.data_append, String.data_append]
  exact infix_extend_right (infix_extend_left h1)

/-- C4: Dispatcher total coverage.  For every operation string not in the
registry and not one of `health` / `models` / `unload`, and every params
mapping, `process_job` returns `success = false` with an error message
that names the unknown operation and contains every valid operation
(registry keys plus the three specials), and leaves the residency state
untouched.  `process_job` is a total function, so no exception can escape
the dispatch boundary. -/
theorem dispatch_unknown_operation (registry : List (String × OpEntry))
    (σ : MMState) (op : String) (params : Params)
    (h1 : op ≠ "health") (h2 : op ≠ "models") (h3 : op ≠ "unload")
    (hreg : registry.lookup op = none) :
    (process_job registry σ op params).1.success = false ∧
    (process_job registry σ op params).1.error =
      some (unknownOpMessage
        (registry.map Prod.fst ++ ["health", "models", "unload"]) op) ∧
    op.data <:+: (unknownOpMessage
        (registry.map Prod.fst ++ ["health", "models", "unload"]) op).data ∧
    (∀ v ∈ registry.map Prod.fst ++ ["health", "models", "unload"],
      v.data <:+: (unknownOpMessage
        (registry.map Prod.fst ++ ["health", "models", "unload"]) op).data) ∧
    (process_job registry σ op params).2.1 = σ := by
  have hred : process_job registry σ op params =
      ({ success := false,
         error := some (unknownOpMessage
           (registry.map Prod.fst ++ ["health", "models", "unload"]) op) },
       σ, false) := by
    unfold process_job
    rw [if_neg h1, if_neg h2, if_neg h3, hreg]
  refine ⟨by rw [hred], by rw [hred], ?_, ?_, by rw [hred]⟩
  · unfold unknownOpMessage
    rw [String.data_append, String.data_append, String.data_append]
    exact infix_extend_right (infix_extend_right
      (infix_extend_left List.infix_rfl))
  · intro v hv
    unfold unknownOpMessage
    rw [String.data_append, String.data_append, String.data_append]
    exact infix_extend_left (mem_pyListRepr v _ hv)

/-- Witness for `dispatch_unknown_operation` at the source registry keys
and the concrete operation string of the spec scenario. -/
theorem dispatch_unknown_operation_witness :
    (process_job testRegistry mmInit "unknown_op" []).1.success = false ∧
    (process_job testRegistry mmInit "unknown_op" []).1.error =
      some (unknownOpMessage
        (testRegistry.map Prod.fst ++ ["health", "models", "unload"])
        "unknown_op") ∧
    ("unknown_op" : String).data <:+: (unknownOpMessage
        (testRegistry.map Prod.fst ++ ["health", "models", "unload"])
        "unknown_op").data ∧
    (∀ v ∈ testRegistry.map Prod.fst ++ ["health", "models", "unload"],
      v.data <:+: (unknownOpMessage
        (testRegistry.map Prod.fst ++ ["health", "models", "unload"])
        "unknown_op").data) ∧
    (process_job testRegistry mmInit "unknown_op" []).2.1 = mmInit :=
  dispatch_unknown_operation testRegistry mmInit "unknown_op" []
    (by decide) (by decide) (by decide) rfl

/-- C5: Validation before execution.  For every registered operation, if
the request-model constructor rejects the raw params, the dispatcher
returns a failure envelope carrying the validation message, the handler is
never invoked (the spy bit is `false`), and the residency state is
returned unchanged. -/
theorem dispatch_validation_failure (registry : List (String × OpEntry))
    (σ : MMState) (op : String) (params : Params) (entry : OpEntry) (e : String)
    (h1 : op ≠ "health") (h2 : op ≠ "models") (h3 : op ≠ "unload")
    (hreg : registry.lookup op = some entry)
    (hv : entry.validate params = Except.error e) :
    (process_job registry σ op params).1.success = false ∧
    (process_job registry σ op params).1.error = some e ∧
    (process_job registry σ op params).2.1 = σ ∧
    (process_job registry σ op params).2.2 = false := by
  have hred : process_job registry σ op params =
      ({ success := false, error := some e }, σ, false) := by
    unfold process_job
    rw [if_neg h1, if_neg h2, if_neg h3, hreg]
    dsimp only
    rw [hv]
  rw [hred]
  exact ⟨rfl, rfl, rfl, rfl⟩

/-- Witness for `dispatch_validation_failure`: the spec scenario — a
`director_edit` request with `strength = 5.0` against the bound 1.0 is
rejected before the spy handler or the residency manager is touched. -/
theorem dispatch_validation_failure_witness :
    (process_job spyRegistry mmInit "director_edit"
        [("strength", "5.0")]).1.success = false ∧
    (process_job spyRegistry mmInit "director_edit"
        [("strength", "5.0")]).1.error =
      some "strength: input should be less than or equal to 1.0" ∧
    (process_job spyRegistry mmInit "director_edit"
        [("strength", "5.0")]).2.1 = mmInit ∧
    (process_job spyRegistry mmInit "director_edit"
        [("strength", "5.0")]).2.2 = false :=
  dispatch_validation_failure spyRegistry mmInit "director_edit"
    [("strength", "5.0")] spyEntry
    "strength: input should be less than or equal to 1.0"
    (by decide) (by decide) (by decide) rfl rfl

/-- C6 counterexample: the unknown-operation envelope produced by the
dispatcher carries NO processing-time field at all, refuting the claim
that every envelope contains `processing_time_ms`. -/
theorem dispatcher_envelope_missing_processing_time :
    (process_job testRegistry mmInit "nonexistent_op" []).1.processing_time_ms
      = none ∧
    (process_job testRegistry mmInit "nonexistent_op" []).1.success = false :=
  ⟨rfl, rfl⟩

/-- C6 amended: every envelope obtained by actually invoking a registered
handler (validation passed, handler returned a `ProcessingResponse` —
whether a success or a handler-internal failure response) contains
`processing_time_ms`, because the field is mandatory in
`ProcessingResponse` and `model_dump()` emits every field; the envelopes
the dispatcher builds itself (health / models / unload, unknown operation,
and exceptions caught at the dispatch boundary) do not contain it. -/
theorem handler_envelope_processing_time (registry : List (String × OpEntry))
    (σ σ' : MMState) (op : String) (params req : Params) (entry : OpEntry)
    (r : ProcessingResponse)
    (h1 : op ≠ "health") (h2 : op ≠ "models") (h3 : op ≠ "unload")
    (hreg : registry.lookup op = some entry)
    (hv : entry.validate params = Except.ok req)
    (hh : entry.handler req σ = (Except.ok r, σ')) :
    (process_job registry σ op params).1 = respEnvelope r ∧
    (process_job registry σ op params).1.processing_time_ms =
      some r.processing_time_ms := by
  have hred : process_job registry σ op params = (respEnvelope r, σ', true) := by
    unfold process_job
    rw [if_neg h1, if_neg h2, if_neg h3, hreg]
    dsimp only
    rw [hv]
    dsimp only
    rw [hh]
  rw [hred]
  exact ⟨rfl, rfl⟩

/-- Witness for `handler_envelope_processing_time` on a stub `rack_focus`
job. -/
theorem handler_envelope_processing_time_witness :
    (process_job testRegistry mmInit "rack_focus" []).1 =
      respEnvelope stubResponse ∧
    (process_job testRegistry mmInit "rack_focus" []).1.processing_time_ms =
      some stubResponse.processing_time_ms :=
  handler_envelope_processing_time testRegistry mmInit mmInit "rack_focus"
    [] [] stubEntry stubResponse (by decide) (by decide) (by decide)
    rfl rfl rfl

/-! ## Storage fallback (main.py `upload_to_storage`, lines 466-499) -/

/-- The R2/S3 environment configuration (main.py lines 45-48). -/
structure StorageConfig where
  r2_account_id : String
  r2_access_key : String
  r2_secret_key : String
  r2_bucket : String
deriving Repr, DecidableEq

/-- The base64 data-URI fallback of main.py line 499.  The external
`base64.b64encode` stdlib encoder is passed in as `b64encode`. -/
def dataUri (b64encode : String → String) (contentType data : String) : String :=
  "data:" ++ contentType ++ ";base64," ++ b64encode data

/-- `upload_to_storage` (main.py lines 466-499): when R2 is configured
(account id and access key are non-empty, Python truthiness) an S3 put is
attempted; `putOk` says whether that external call succeeds — on its
failure the exception is caught and the function falls through to the
base64 data URI, as it also does when storage is not configured.  The
function is total: it always returns a string. -/
def upload_to_storage (cfg : StorageConfig) (b64encode : String → String)
    (putOk : Bool) (now : Nat) (data filename contentType : String) : String :=
  if cfg.r2_account_id ≠ "" ∧ cfg.r2_access_key ≠ "" then
    if putOk then
      "https://" ++ cfg.r2_bucket ++ "." ++ cfg.r2_account_id ++
        ".r2.cloudflarestorage.com/gpu-worker/" ++ toString now ++ "/" ++ filename
    else dataUri b64encode contentType data
  else dataUri b64encode contentType data

/-- `generate_depth_anything` (main.py lines 886-979), the representative
artifact-producing handler: fetch the image (external, fallible), ensure
the model, run inference (external, fallible, modelled by `inferred`
yielding the encoded artifact bytes), persist via `upload_to_storage`, and
return a success `ProcessingResponse` whose `output_url` is whatever the
storage call returned; any raise is caught and becomes a failure
response.  `elapsed_ms` stands for the wall-clock measurement. -/
def generate_depth_anything (ok : String → Bool)
    (fetched : Except String Unit) (inferred : Except String String)
    (cfg : StorageConfig) (b64encode : String → String) (putOk : Bool)
    (now : Nat) (elapsed_ms : Int) (output_format : String) (σ : MMState) :
    ProcessingResponse × MMState :=
  match fetched with
  | Except.error e =>
    ({ success := false, processing_time_ms := elapsed_ms, error := some e }, σ)
  | Except.ok _ =>
    match ensure_model ok σ "depth_anything" with
    | (Except.error e, σ') =>
      ({ success := false, processing_time_ms := elapsed_ms, error := some e }, σ')
    | (Except.ok _, σ') =>
      match inferred with
      | Except.error e =>
        ({ success := false, processing_time_ms := elapsed_ms,
           error := some e }, σ')
      | Except.ok depth_bytes =>
        let content_type :=
          if pyLower output_format = "png" then "image/png" else "image/jpeg"
        let ext := if pyLower output_format = "png" then "png" else "jpg"
        let output_url := upload_to_storage cfg b64encode putOk now depth_bytes
          ("depth_anything_" ++ toString now ++ "." ++ ext) content_type
        ({ success := true, output_url := some output_url,
           processing_time_ms := elapsed_ms }, σ')

/-- C9: Storage-failure degradation.  If the artifact was computed (fetch,
model load and inference succeeded) but object storage is unconfigured or
the upload raises, the job still returns a success envelope, and the
output representation degrades from a storage URL to the inline base64
data URI. -/
theorem storage_failure_degrades (ok : String → Bool)
    (inferred : Except String String) (cfg : StorageConfig)
    (b64encode : String → String) (putOk : Bool) (now : Nat)
    (elapsed_ms : Int) (output_format : String) (σ : MMState)
    (data : String) (hdl : Option Handle)
    (hinf : inferred = Except.ok data)
    (hens : (ensure_model ok σ "depth_anything").1 = Except.ok hdl)
    (hstore : cfg.r2_account_id = "" ∨ cfg.r2_access_key = "" ∨ putOk = false) :
    (generate_depth_anything ok (Except.ok ()) inferred cfg b64encode putOk
        now elapsed_ms output_format σ).1.success = true ∧
    (generate_depth_anything ok (Except.ok ()) inferred cfg b64encode putOk
        now elapsed_ms output_format σ).1.output_url =
      some (dataUri b64encode
        (if pyLower output_format = "png" then "image/png" else "image/jpeg")
        data) := by
  subst hinf
  have hup : upload_to_storage cfg b64encode putOk now data
      ("depth_anything_" ++ toString now ++ "." ++
        (if pyLower output_format = "png" then "png" else "jpg"))
      (if pyLower output_format = "png" then "image/png" else "image/jpeg") =
      dataUri b64encode
        (if pyLower output_format = "png" then "image/png" else "image/jpeg")
        data := by
    unfold upload_to_storage
    rcases hstore with h | h | h
    · rw [if_neg]
      rintro ⟨h1, _⟩
      exact h1 h
    · rw [if_neg]
      rintro ⟨_, h2⟩
      exact h2 h
    · by_cases hc : cfg.r2_account_id ≠ "" ∧ cfg.r2_access_key ≠ ""
      · rw [if_pos hc, if_neg (by simp [h])]
      · rw [if_neg hc]
  unfold generate_depth_anything
  dsimp only
  rcases he : ensure_model ok σ "depth_anything" with ⟨r, σ'⟩
  rw [he] at hens
  have hr : r = Except.ok hdl := hens
  subst hr
  dsimp only
  rw [hup]
  exact ⟨rfl, rfl⟩

/-- Witness for `storage_failure_degrades`: unconfigured storage, a
computed artifact, and the inline base64 degradation. -/
theorem storage_failure_degrades_witness :
    (generate_depth_anything (fun _ => true) (Except.ok ())
        (Except.ok "DEPTHBYTES")
        (StorageConfig.mk "" "" "" "vibeboard-assets") (fun s => s) true 0 5
        "png" mmInit).1.success = true ∧
    (generate_depth_anything (fun _ => true) (Except.ok ())
        (Except.ok "DEPTHBYTES")
        (StorageConfig.mk "" "" "" "vibeboard-assets") (fun s => s) true 0 5
        "png" mmInit).1.output_url =
      some (dataUri (fun s => s)
        (if pyLower "png" = "png" then "image/png" else "image/jpeg")
        "DEPTHBYTES") :=
  storage_failure_degrades (fun _ => true) (Except.ok "DEPTHBYTES")
    (StorageConfig.mk "" "" "" "vibeboard-assets") (fun s => s) true 0 5
    "png" mmInit "DEPTHBYTES" (some 0) rfl (by decide) (Or.inl rfl)

/-! ## Wan 2.1 frame computation (main.py `generate_video`, lines 1127-1233) -/

/-- CPython `int()` applied to a (here exactly-represented) float:
truncation toward zero. -/
def pyTrunc (q : ℚ) : ℤ :=
  if 0 ≤ q then ⌊q⌋ else ⌈q⌉

/-- The frame count handed to the Wan T2V pipeline (main.py lines
1173-1177): `min(int(duration_seconds * fps), 97)`. -/
def wan_t2v_num_frames (duration_seconds : ℚ) (fps : ℤ) : ℤ :=
  min (pyTrunc (duration_seconds * (fps : ℚ))) 97

/-- The frame count handed to the Wan I2V pipeline (main.py lines
1153-1158): `min(int(duration_seconds * fps), 97)`. -/
def wan_i2v_num_frames (duration_seconds : ℚ) (fps : ℤ) : ℤ :=
  min (pyTrunc (duration_seconds * (fps : ℚ))) 97

/-- C10 counterexample: at the schema-valid request `duration_seconds =
1.5` (within the bound [1, 10]) and `fps = -3` (the schema puts no lower
bound on fps), the code passes `min(int(-4.5), 97) = -4` frames, while the
claimed formula `min(floor(duration * fps), 97)` gives `-5` — Python
`int()` truncates toward zero instead of flooring. -/
theorem wan_frame_cap_counterexample :
    wan_t2v_num_frames (3/2) (-3) = -4 ∧
    min (⌊((3 : ℚ)/2) * ((-3 : ℤ) : ℚ)⌋) 97 = -5 ∧
    (1 ≤ ((3 : ℚ)/2) ∧ ((3 : ℚ)/2) ≤ 10) := by
  have htr : pyTrunc ((3 : ℚ)/2 * ((-3 : ℤ) : ℚ)) = -4 := by
    unfold pyTrunc
    rw [if_neg (by norm_num), Int.ceil_eq_iff]
    norm_num
  refine ⟨?_, by norm_num, by norm_num⟩
  unfold wan_t2v_num_frames
  rw [htr]
  norm_num

/-- C10 amended: for every schema-valid request (duration in [1, 10], any
integer fps) the two modes compute the identical frame count, the value
never exceeds 97 (requests implying more frames are silently clamped —
the computation is total, never a rejection), and whenever `fps ≥ 0` the
count equals `min(floor(duration * fps), 97)` exactly as claimed; the
truncation-vs-floor difference only surfaces for negative fps. -/
theorem wan_frame_cap_amended (d : ℚ) (fps : ℤ) (h1 : 1 ≤ d) (h2 : d ≤ 10) :
    wan_i2v_num_frames d fps = wan_t2v_num_frames d fps ∧
    wan_t2v_num_frames d fps ≤ 97 ∧
    (0 ≤ fps → wan_t2v_num_frames d fps = min ⌊d * (fps : ℚ)⌋ 97) := by
  refine ⟨rfl, min_le_right _ _, ?_⟩
  intro hf
  unfold wan_t2v_num_frames pyTrunc
  rw [if_pos]
  exact mul_nonneg (le_trans zero_le_one h1) (by exact_mod_cast hf)

/-- Witness for `wan_frame_cap_amended` at the clamping request
`duration = 5`, `fps = 24` (120 implied frames, clamped to 97). -/
theorem wan_frame_cap_amended_witness :
    wan_i2v_num_frames 5 24 = wan_t2v_num_frames 5 24 ∧
    wan_t2v_num_frames 5 24 ≤ 97 ∧
    wan_t2v_num_frames 5 24 = min ⌊(5 : ℚ) * ((24 : ℤ) : ℚ)⌋ 97 := by
  have h := wan_frame_cap_amended 5 24 (by norm_num) (by norm_num)
  exact ⟨h.1, h.2.1, h.2.2 (by norm_num)⟩

end GpuWorker
